import Mathlib

set_option autoImplicit false

/-
Verification development for the glibc-tools multi-target build orchestrator
(glibc-tools.py).  The Python script is shallowly embedded: pure command
construction is translated to Lean functions, the catalog construction to
explicit state passing over an `Except` monad (`sys.exit(1)` becomes
`Except.error`), and the thread-pool scheduler to a function producing an
explicit, serialized trace of observable events (directory removal, command
submission, command completion, result printing).  External subprocess output
(`subprocess.getoutput`) and exit statuses are modelled as oracle functions
passed in as parameters.
-/

namespace GlibcTools

/-- Settings read from the configuration file (`read_config`), after the
`gccversion` adjustments applied there (so `compilers` already carries the
version suffix and `gccversion` is either empty or of the form `-gcc<v>`),
together with the host machine string reported by `platform.machine()`. -/
structure Env where
  srcdir : String
  builddir : String
  logsdir : String
  compilers : String
  gccversion : String
  machine : String
deriving Repr, DecidableEq

/-- Mirror of `build_dir`: the per-target build directory. -/
def build_dir (env : Env) (abi : String) : String :=
  env.builddir ++ "/" ++ abi ++ env.gccversion

/-- Mirror of `PLATFORM_MAP`. -/
def PLATFORM_MAP : List (String × String) := [("ppc64le", "powerpc64le")]

/-- Mirror of `build_triplet`: normalize the machine name and append the
`-linux-gnu` suffix. -/
def build_triplet (env : Env) : String :=
  (match PLATFORM_MAP.lookup env.machine with
   | some p => p
   | none => env.machine) ++ "-linux-gnu"

/-- Mirror of the `ACTIONS` tuple, in source order. -/
def ACTIONS : List String :=
  ["configure", "copylibs", "make", "check", "check-abi", "update-abi",
   "bench-build", "list"]

/-- Mirror of the `Config` class attributes (target compiler configuration):
`name` and `triplet` are derived exactly as in `Config.__init__`. -/
structure Config where
  arch : String
  os : String
  variant : Option String
deriving Repr, DecidableEq

def Config.name (c : Config) : String :=
  match c.variant with
  | none => c.arch ++ "-" ++ c.os
  | some v => c.arch ++ "-" ++ c.os ++ "-" ++ v

def Config.triplet (c : Config) : String :=
  c.arch ++ "-glibc-" ++ c.os

/-- Keyword arguments of one entry of a `glibcs`/`extra_glibcs` list in
`add_config` (the `**g` dictionaries); absent keys are `none`. -/
structure GlibcArgs where
  arch : Option String := none
  os_name : Option String := none
  variant : Option String := none
  cfg : Option (List String) := none
  ccopts : Option String := none
deriving Repr, DecidableEq

/-- Mirror of the `Glibc` class attributes, as set up by `Glibc.__init__`. -/
structure Glibc where
  compiler : Config
  arch : String
  os : String
  variant : Option String
  cfg : List String
  ccopts : Option String
deriving Repr, DecidableEq

/-- Mirror of `Glibc.__init__`: defaults for `arch`/`os` come from the parent
compiler `Config`; `cfg` defaults to the empty list. -/
def mkGlibc (compiler : Config) (g : GlibcArgs) : Glibc :=
  { compiler := compiler
    arch := g.arch.getD compiler.arch
    os := g.os_name.getD compiler.os
    variant := g.variant
    cfg := g.cfg.getD []
    ccopts := g.ccopts }

def Glibc.name (g : Glibc) : String :=
  match g.variant with
  | none => g.arch ++ "-" ++ g.os
  | some v => g.arch ++ "-" ++ g.os ++ "-" ++ v

def Glibc.host_triplet (g : Glibc) : String :=
  g.arch ++ "-" ++ g.os

/-- Keyword arguments of one `add_config` call. -/
structure ConfigArgs where
  arch : String
  os_name : String
  variant : Option String := none
  glibcs : Option (List GlibcArgs) := none
  extra_glibcs : Option (List GlibcArgs) := none
deriving Repr

/-- Mirror of `Config.__init__`: build the `Config` record and its list of
`Glibc` build configurations (`all_glibcs = glibcs + extra_glibcs`, where
`glibcs` defaults to the single entry `[{variant: variant}]`). -/
def mkConfig (a : ConfigArgs) : Config × List Glibc :=
  let c : Config := { arch := a.arch, os := a.os_name, variant := a.variant }
  let gs := a.glibcs.getD [{ variant := a.variant }]
  let egs := a.extra_glibcs.getD []
  (c, (gs ++ egs).map (mkGlibc c))

/-- The mutable catalog state of `Context`: `configs` and `glibc_configs`,
as association lists in insertion order (Python dictionaries preserve
insertion order). -/
structure CatState where
  configs : List (String × Config)
  glibc_configs : List (String × Glibc)
deriving Repr

/-- Mirror of the second half of `Context.add_config`: register each glibc
build configuration, aborting (`exit(1)`, modelled as `Except.error`) on a
duplicate name. -/
def addGlibcs : CatState → List Glibc → Except String CatState
  | st, [] => .ok st
  | st, g :: rest =>
    if (st.glibc_configs.lookup g.name).isSome then
      .error ("error: duplicate glibc config " ++ g.name)
    else
      addGlibcs { st with glibc_configs := st.glibc_configs ++ [(g.name, g)] } rest

/-- Mirror of `Context.add_config`: abort on a duplicate compiler-config
name, then register all the glibc build configurations. -/
def add_config (st : CatState) (a : ConfigArgs) : Except String CatState :=
  let cg := mkConfig a
  if (st.configs.lookup cg.1.name).isSome then
    .error ("error: duplicate config " ++ cg.1.name)
  else
    addGlibcs { st with configs := st.configs ++ [(cg.1.name, cg.1)] } cg.2

/-- Mirror of `Context.add_all_configs`: the full fixed catalog, transcribed
call by call from the source. -/
def add_all_configs : Except String CatState := do
  let st : CatState := { configs := [], glibc_configs := [] }
  let st ← add_config st
    { arch := "aarch64", os_name := "linux-gnu" }
  let st ← add_config st
    { arch := "aarch64_be", os_name := "linux-gnu" }
  let st ← add_config st
    { arch := "arc", os_name := "linux-gnu" }
  let st ← add_config st
    { arch := "arc", os_name := "linux-gnuhf" }
  let st ← add_config st
    { arch := "arceb", os_name := "linux-gnu" }
  let st ← add_config st
    { arch := "alpha", os_name := "linux-gnu",
      glibcs := some [{},
                    { variant := some "ev6", ccopts := some "-mcpu=ev6" }] }
  let st ← add_config st
    { arch := "arm", os_name := "linux-gnueabi",
      glibcs := some [{},
                    { arch := some "armv7", ccopts := some "-march=armv7-a" }] }
  let st ← add_config st
    { arch := "arm", os_name := "linux-gnueabihf",
      glibcs := some [{},
                    { arch := some "armv5",
                      ccopts := some "-march=armv5te -mfpu=vfpv3" },
                    { arch := some "armv6",
                      ccopts := some "-march=armv6 -mfpu=vfpv3" },
                    { arch := some "armv6t2",
                      ccopts := some "-march=armv6t2 -mfpu=vfpv3" },
                    { arch := some "armv7",
                      ccopts := some "-march=armv7-a -mfpu=vfpv3" },
                    { arch := some "armv7-thumb",
                      ccopts := some "-march=armv7-a -mfpu=vfpv3 -mthumb" },
                    { variant := some "armv7-disable-multi-arch",
                      ccopts := some "-march=armv7-a -mfpu=vfpv3",
                      cfg := some ["--disable-multi-arch"] },
                    { arch := some "armv7-neon",
                      ccopts := some "-march=armv7-a -mfpu=neon" },
                    { arch := some "armv7-neonhard",
                      ccopts := some "-march=armv7-a -mfpu=neon -mfloat-abi=hard" }] }
  let st ← add_config st
    { arch := "armeb", os_name := "linux-gnueabihf",
      glibcs := some [{},
                    { arch := some "armeb-v5",
                      ccopts := some "-march=armv5te -mfpu=vfpv3" },
                    { arch := some "armeb-v6",
                      ccopts := some "-march=armv6 -mfpu=vfpv3" },
                    { arch := some "armeb-v6t2",
                      ccopts := some "-march=armv6t2 -mfpu=vfpv3" },
                    { arch := some "armeb-v7",
                      ccopts := some "-march=armv7-a -mfpu=vfpv3" },
                    { variant := some "armv7-disable-multi-arch",
                      ccopts := some "-march=armv7-a -mfpu=vfpv3",
                      cfg := some ["--disable-multi-arch"] },
                    { arch := some "armeb-v7neon",
                      ccopts := some "-march=armv7-a -mfpu=neon" },
                    { arch := some "armeb-v7neonhard",
                      ccopts := some "-march=armv7-a -mfpu=neon -mfloat-abi=hard" }] }
  let st ← add_config st
    { arch := "hppa", os_name := "linux-gnu" }
  let st ← add_config st
    { arch := "ia64", os_name := "linux-gnu" }
  let st ← add_config st
    { arch := "i686", os_name := "gnu" }
  let st ← add_config st
    { arch := "m68k", os_name := "linux-gnu" }
  let st ← add_config st
    { arch := "m68k", os_name := "linux-gnu",
      variant := some "coldfire" }
  let st ← add_config st
    { arch := "microblaze", os_name := "linux-gnu" }
  let st ← add_config st
    { arch := "microblazeel", os_name := "linux-gnu" }
  let st ← add_config st
    { arch := "mips64", os_name := "linux-gnu",
      glibcs := some [{ arch := some "mips64-n32" },
                    { arch := some "mips", ccopts := some "-mabi=32" },
                    { arch := some "mips", variant := some "mips16",
                      ccopts := some "-mabi=32 -mips16" },
                    { arch := some "mips64", ccopts := some "-mabi=64" }] }
  let st ← add_config st
    { arch := "mips64", os_name := "linux-gnu",
      variant := some "soft",
      glibcs := some [{ arch := some "mips", variant := some "soft",
                        ccopts := some "-mabi=32" }] }
  let st ← add_config st
    { arch := "mips64el", os_name := "linux-gnu",
      glibcs := some [{ arch := some "mips64el-n32" },
                    { arch := some "mipsel", ccopts := some "-mabi=32" },
                    { arch := some "mips64el", ccopts := some "-mabi=64" }] }
  let st ← add_config st
    { arch := "nios2", os_name := "linux-gnu" }
  let st ← add_config st
    { arch := "or1k", os_name := "linux-gnu",
      variant := some "soft" }
  let st ← add_config st
    { arch := "powerpc", os_name := "linux-gnu",
      variant := some "soft" }
  let st ← add_config st
    { arch := "powerpc", os_name := "linux-gnu",
      glibcs := some [{},
      { variant := some "power4", ccopts := some "-mcpu=power4",
        cfg := some ["--with-cpu=power4"] },
      { variant := some "power5", ccopts := some "-mcpu=power5",
        cfg := some ["--with-cpu=power5"] },
      { variant := some "power5+", ccopts := some "-mcpu=power5+",
        cfg := some ["--with-cpu=power5+"] },
      { variant := some "power6", ccopts := some "-mcpu=power6",
        cfg := some ["--with-cpu=power6"] },
      { variant := some "power6x", ccopts := some "-mcpu=power6",
        cfg := some ["--with-cpu=power6"] },
      { variant := some "power7", ccopts := some "-mcpu=power7",
        cfg := some ["--with-cpu=power7"] },
      { variant := some "power8", ccopts := some "-mcpu=power8",
        cfg := some ["--with-cpu=power8"] },
      { variant := some "power9", ccopts := some "-mcpu=power9",
        cfg := some ["--with-cpu=power9"] },
      { variant := some "power10", ccopts := some "-mcpu=power10",
        cfg := some ["--with-cpu=power10"] },
      { variant := some "power4-disable-multi-arch", ccopts := some "-mcpu=power4",
        cfg := some ["--with-cpu=power4", "--disable-multi-arch"] },
      { variant := some "power5-disable-multi-arch", ccopts := some "-mcpu=power5",
        cfg := some ["--with-cpu=power5", "--disable-multi-arch"] },
      { variant := some "power5+-disable-multi-arch", ccopts := some "-mcpu=power5+",
        cfg := some ["--with-cpu=power5+", "--disable-multi-arch"] },
      { variant := some "power6-disable-multi-arch", ccopts := some "-mcpu=power6",
        cfg := some ["--with-cpu=power6", "--disable-multi-arch"] },
      { variant := some "power6x-disable-multi-arch", ccopts := some "-mcpu=power6x",
        cfg := some ["--with-cpu=power6x", "--disable-multi-arch"] },
      { variant := some "power7-disable-multi-arch", ccopts := some "-mcpu=power7",
        cfg := some ["--with-cpu=power7", "--disable-multi-arch"] },
      { variant := some "power8-disable-multi-arch", ccopts := some "-mcpu=power8",
        cfg := some ["--with-cpu=power8", "--disable-multi-arch"] },
      { variant := some "disable-multi-arch",
        cfg := some ["--disable-multi-arch"] }] }
  let st ← add_config st
    { arch := "powerpc64", os_name := "linux-gnu",
      glibcs := some [{},
      { variant := some "power4", ccopts := some "-mcpu=power4",
        cfg := some ["--with-cpu=power4"] },
      { variant := some "power5", ccopts := some "-mcpu=power5",
        cfg := some ["--with-cpu=power5"] },
      { variant := some "power5+", ccopts := some "-mcpu=power5+",
        cfg := some ["--with-cpu=power5+"] },
      { variant := some "power6", ccopts := some "-mcpu=power6",
        cfg := some ["--with-cpu=power6"] },
      { variant := some "power6x", ccopts := some "-mcpu=power6x",
        cfg := some ["--with-cpu=power6x"] },
      { variant := some "power7", ccopts := some "-mcpu=power7",
        cfg := some ["--with-cpu=power7"] },
      { variant := some "power8", ccopts := some "-mcpu=power8",
        cfg := some ["--with-cpu=power8"] },
      { variant := some "power4-disable-multi-arch", ccopts := some "-mcpu=power4",
        cfg := some ["--with-cpu=power4", "--disable-multi-arch"] },
      { variant := some "power5-disable-multi-arch", ccopts := some "-mcpu=power5",
        cfg := some ["--with-cpu=power5", "--disable-multi-arch"] },
      { variant := some "power5+-disable-multi-arch", ccopts := some "-mcpu=power5+",
        cfg := some ["--with-cpu=power5+", "--disable-multi-arch"] },
      { variant := some "power6-disable-multi-arch", ccopts := some "-mcpu=power6",
        cfg := some ["--with-cpu=power6", "--disable-multi-arch"] },
      { variant := some "power6x-disable-multi-arch", ccopts := some "-mcpu=power6x",
        cfg := some ["--with-cpu=power6x", "--disable-multi-arch"] },
      { variant := some "power7-disable-multi-arch", ccopts := some "-mcpu=power7",
        cfg := some ["--with-cpu=power7", "--disable-multi-arch"] },
      { variant := some "power8-disable-multi-arch", ccopts := some "-mcpu=power8",
        cfg := some ["--with-cpu=power8", "--disable-multi-arch"] },
      { variant := some "disable-multi-arch",
        cfg := some ["--disable-multi-arch"] }] }
  let st ← add_config st
    { arch := "powerpc64le", os_name := "linux-gnu",
      glibcs := some [{},
      { variant := some "power8", ccopts := some "-mcpu=power8",
        cfg := some ["--with-cpu=power8"] },
      { variant := some "power9", ccopts := some "-mcpu=power9",
        cfg := some ["--with-cpu=power9"] },
      { variant := some "power10", ccopts := some "-mcpu=power10",
        cfg := some ["--with-cpu=power10"] },
      { variant := some "power7-disable-multi-arch", ccopts := some "-mcpu=power7",
        cfg := some ["--with-cpu=power8", "--disable-multi-arch"] },
      { variant := some "power8-disable-multi-arch", ccopts := some "-mcpu=power8",
        cfg := some ["--with-cpu=power8", "--disable-multi-arch"] },
      { variant := some "power9-disable-multi-arch", ccopts := some "-mcpu=power9",
        cfg := some ["--with-cpu=power9", "--disable-multi-arch"] },
      { variant := some "power10-disable-multi-arch", ccopts := some "-mcpu=power10",
        cfg := some ["--with-cpu=power10", "--disable-multi-arch"] },
      { variant := some "disable-multi-arch",
        cfg := some ["--disable-multi-arch"] }] }
  let st ← add_config st
    { arch := "riscv32", os_name := "linux-gnu",
      variant := some "rv32imac-ilp32" }
  let st ← add_config st
    { arch := "riscv32", os_name := "linux-gnu",
      variant := some "rv32imafdc-ilp32" }
  let st ← add_config st
    { arch := "riscv32", os_name := "linux-gnu",
      variant := some "rv32imafdc-ilp32d" }
  let st ← add_config st
    { arch := "riscv64", os_name := "linux-gnu",
      variant := some "rv64imac-lp64" }
  let st ← add_config st
    { arch := "riscv64", os_name := "linux-gnu",
      variant := some "rv64imafdc-lp64" }
  let st ← add_config st
    { arch := "riscv64", os_name := "linux-gnu",
      variant := some "rv64imafdc-lp64d" }
  let st ← add_config st
    { arch := "s390x", os_name := "linux-gnu",
      glibcs := some [{},
                    { variant := some "z900", ccopts := some "-march=z900" },
                    { variant := some "z10", ccopts := some "-march=z10" },
                    { variant := some "z196", ccopts := some "-march=z196" },
                    { arch := some "s390", ccopts := some "-m31" }] }
  let st ← add_config st
    { arch := "csky", os_name := "linux-gnuabiv2",
      variant := some "soft" }
  let st ← add_config st
    { arch := "csky", os_name := "linux-gnuabiv2" }
  let st ← add_config st
    { arch := "sh4", os_name := "linux-gnu" }
  let st ← add_config st
    { arch := "sh4eb", os_name := "linux-gnu" }
  let st ← add_config st
    { arch := "sh4", os_name := "linux-gnu",
      variant := some "soft" }
  let st ← add_config st
    { arch := "sh4eb", os_name := "linux-gnu",
      variant := some "soft" }
  let st ← add_config st
    { arch := "sparc64", os_name := "linux-gnu",
      glibcs := some [{ ccopts := some "-mcpu=niagara" },
                    { arch := some "sparc",
                      ccopts := some "-m32 -mlong-double-128 -mcpu=leon3" },
                    { arch := some "sparcv8",
                      ccopts := some "-m32 -mlong-double-128 -mcpu=leon3" },
                    { arch := some "sparcv9",
                      ccopts := some "-m32 -mlong-double-128 -mcpu=v9" }],
      extra_glibcs := some [{ variant := some "disable-multi-arch",
                              cfg := some ["--disable-multi-arch"] },
                          { variant := some "disable-multi-arch",
                            arch := some "sparcv9",
                            ccopts := some "-m32 -mlong-double-128 -mcpu=v9",
                            cfg := some ["--disable-multi-arch"] }] }
  let st ← add_config st
    { arch := "x86_64", os_name := "linux-gnu",
      glibcs := some [{},
                    { variant := some "x32", ccopts := some "-mx32" },
                    { arch := some "i686", ccopts := some "-m32 -march=i686" },
                    { variant := some "v2", ccopts := some "-march=x86-64-v2" },
                    { variant := some "v3", ccopts := some "-march=x86-64-v3" },
                    { variant := some "v4", ccopts := some "-march=x86-64-v4" }],
      extra_glibcs := some [{ variant := some "disable-multi-arch",
                              cfg := some ["--disable-multi-arch"] },
                          { variant := some "disable-multi-arch",
                            arch := some "i686",
                            ccopts := some "-m32 -march=i686",
                            cfg := some ["--disable-multi-arch"] },
                          { arch := some "i486",
                            ccopts := some "-m32 -march=i486" },
                          { arch := some "i586",
                            ccopts := some "-m32 -march=i586" },
                          { variant := some "fp",
                            arch := some "i686",
                            ccopts := some "-m32 -march=i686 -fno-omit-frame-pointer" }] }
  return st

/-- Whether catalog construction succeeded (the process did not abort). -/
def exceptOk {ε α : Type} : Except ε α → Bool
  | .ok _ => true
  | .error _ => false

/-- The glibc-config catalog produced by `Context.__init__` via
`add_all_configs` (empty in the aborted case, which `C5` rules out). -/
def theCatalog : List (String × Glibc) :=
  match add_all_configs with
  | .ok st => st.glibc_configs
  | .error _ => []

/-- The registered target identifiers, in insertion order. -/
def catalogKeys : List String := theCatalog.map Prod.fst

/-- Mirror of the processed command-line options held by `Context.__init__`
that the command builders consult (`parallelize` is the worker-pool size,
`build_jobs` the `-j` value passed to `make`). -/
structure Ctx where
  parallelize : Nat
  build_jobs : Nat
  run_built_tests : String
  extra_config_opts : List String
  keep : Bool

/-- The cross-tool path without any flags suffix (the `ctool` local of
`Glibc.tool_name` before the `ccopts` adjustment). -/
def toolBase (env : Env) (g : Glibc) (tool : String) : String :=
  env.compilers ++ "/" ++ g.compiler.name ++ "/bin/" ++ g.compiler.triplet ++ "-" ++ tool

/-- Mirror of `Glibc.tool_name`: the cross-tool path, with the extra compiler
flags appended only for the `gcc` and `g++` tools. -/
def Glibc.tool_name (env : Env) (g : Glibc) (tool : String) : String :=
  let ctool := toolBase env g tool
  match g.ccopts with
  | some opts => if tool = "gcc" || tool = "g++" then ctool ++ " " ++ opts else ctool
  | none => ctool

/-- Mirror of `Glibc.configure`: the argument list of the configure command. -/
def Glibc.configure (env : Env) (g : Glibc) (extra_config_opts : List String) :
    List String :=
  let cmd := [env.srcdir ++ "/configure",
              "--prefix=/usr",
              "--build=" ++ build_triplet env,
              "--host=" ++ g.host_triplet,
              "CC=" ++ g.tool_name env "gcc",
              "CXX=" ++ g.tool_name env "g++",
              "AR=" ++ g.tool_name env "ar",
              "AS=" ++ g.tool_name env "as",
              "LD=" ++ g.tool_name env "ld",
              "NM=" ++ g.tool_name env "nm",
              "OBJCOPY=" ++ g.tool_name env "objcopy",
              "OBJDUMP=" ++ g.tool_name env "objdump",
              "RANLIB=" ++ g.tool_name env "ranlib",
              "READELF=" ++ g.tool_name env "readelf",
              "STRIP=" ++ g.tool_name env "strip"]
  let cmd := cmd ++ (if g.os = "gnu" then ["MIG=" ++ g.tool_name env "mig"] else [])
  cmd ++ extra_config_opts ++ g.cfg

/-- Mirror of `Glibc.lib_name`: run the target compiler with
`-print-file-name` and capture its output.  The external
`subprocess.getoutput` is modelled by the oracle `execOut` from command
strings to captured output. -/
def Glibc.lib_name (env : Env) (execOut : String → String) (g : Glibc)
    (lib : String) : String :=
  execOut (g.tool_name env "gcc" ++ " -print-file-name=" ++ lib)

/-- Mirror of `Glibc.copylibs`: resolve `libgcc_s.so.1` (falling back to
`libgcc_s.so` when the query echoes the bare name back, i.e. was not found)
and `libstdc++.so.6`, and build the `cp` command into the build directory. -/
def Glibc.copylibs (env : Env) (execOut : String → String) (g : Glibc) :
    List String :=
  let libgcc := g.lib_name env execOut "libgcc_s.so.1"
  let libgcc := if libgcc = "libgcc_s.so.1" then g.lib_name env execOut "libgcc_s.so"
                else libgcc
  let libstdcxx := g.lib_name env execOut "libstdc++.so.6"
  ["cp", libgcc, libstdcxx, build_dir env g.name]

/-- Mirror of `Glibc.build`. -/
def Glibc.build (ctx : Ctx) : List String :=
  ["make", "-j" ++ toString ctx.build_jobs]

/-- Mirror of `Glibc.check`. -/
def Glibc.check (ctx : Ctx) : List String :=
  ["make", "check", "run-built-tests=" ++ ctx.run_built_tests,
   "-j" ++ toString ctx.build_jobs]

/-- Mirror of `Glibc.check_abi`. -/
def Glibc.check_abi (ctx : Ctx) : List String :=
  ["make", "check-abi", "-j" ++ toString ctx.build_jobs]

/-- Mirror of `Glibc.update_abi`. -/
def Glibc.update_abi (ctx : Ctx) : List String :=
  ["make", "update-abi", "-j" ++ toString ctx.build_jobs]

/-- Mirror of `Glibc.bench_build`. -/
def Glibc.bench_build (ctx : Ctx) : List String :=
  ["make", "bench-build", "-j" ++ toString ctx.build_jobs]

/-- The stage-chain component of `Context.CMD_MAP` (second tuple element of
each entry), in source order. -/
def CMD_MAP_stages : List (String × List String) :=
  [("copylibs", []),
   ("configure", ["configure", "copylibs"]),
   ("make", ["configure", "copylibs", "make"]),
   ("check", ["configure", "copylibs", "make", "check"]),
   ("check-abi", ["configure", "make", "check-abi"]),
   ("update-abi", ["configure", "make", "update-abi"]),
   ("bench-build", ["configure", "make", "bench-build"])]

/-- The stage chain the resolver returns for a terminal action. -/
def stagesOf (action : String) : Option (List String) :=
  CMD_MAP_stages.lookup action

/-- The command-builder component of `Context.CMD_MAP` (first tuple element
of each entry): dispatch a stage name to the corresponding `Glibc` builder.
Stage names are always `CMD_MAP` keys, so the catch-all branch is dead. -/
def cmdFor (env : Env) (ctx : Ctx) (execOut : String → String) (g : Glibc) :
    String → List String
  | "copylibs" => g.copylibs env execOut
  | "configure" => g.configure env ctx.extra_config_opts
  | "make" => Glibc.build ctx
  | "check" => Glibc.check ctx
  | "check-abi" => Glibc.check_abi ctx
  | "update-abi" => Glibc.update_abi ctx
  | "bench-build" => Glibc.bench_build ctx
  | _ => []

/-- Mirror of `SPECIAL_LISTS`: the named target groups, transcribed from the
source. -/
def SPECIAL_LISTS : List (String × List String) :=
  [("linux",
    ["aarch64-linux-gnu", "alpha-linux-gnu", "arc-linux-gnuhf",
     "arm-linux-gnueabihf", "csky-linux-gnuabiv2", "hppa-linux-gnu",
     "i686-linux-gnu", "ia64-linux-gnu", "m68k-linux-gnu",
     "microblaze-linux-gnu", "mips64-linux-gnu", "mips64-n32-linux-gnu",
     "mips-linux-gnu", "nios2-linux-gnu", "or1k-linux-gnu-soft",
     "powerpc64le-linux-gnu", "powerpc64-linux-gnu", "powerpc-linux-gnu",
     "riscv32-linux-gnu-rv32imafdc-ilp32d", "riscv64-linux-gnu-rv64imafdc-lp64d",
     "s390-linux-gnu", "s390x-linux-gnu", "sh4-linux-gnu", "sparc64-linux-gnu",
     "sparcv9-linux-gnu", "x86_64-linux-gnu", "x86_64-linux-gnu-x32"]),
   ("abi",
    ["aarch64-linux-gnu", "alpha-linux-gnu", "arc-linux-gnuhf",
     "arm-linux-gnueabihf", "armeb-linux-gnueabihf", "csky-linux-gnuabiv2",
     "hppa-linux-gnu", "i686-linux-gnu", "ia64-linux-gnu", "m68k-linux-gnu",
     "m68k-linux-gnu-coldfire", "microblaze-linux-gnu",
     "microblazeel-linux-gnu", "mips64-linux-gnu", "mips64-n32-linux-gnu",
     "mips-linux-gnu", "mips-linux-gnu-soft", "nios2-linux-gnu",
     "or1k-linux-gnu-soft", "powerpc64le-linux-gnu", "powerpc64-linux-gnu",
     "powerpc-linux-gnu", "powerpc-linux-gnu-soft",
     "riscv32-linux-gnu-rv32imafdc-ilp32d", "riscv64-linux-gnu-rv64imafdc-lp64d",
     "s390-linux-gnu", "s390x-linux-gnu", "sh4-linux-gnu", "sh4eb-linux-gnu",
     "sparc64-linux-gnu", "sparcv9-linux-gnu", "x86_64-linux-gnu",
     "x86_64-linux-gnu-x32", "i686-gnu"]),
   ("abi32",
    ["arm-linux-gnueabihf", "armeb-linux-gnueabihf", "csky-linux-gnuabiv2",
     "hppa-linux-gnu", "i686-linux-gnu", "m68k-linux-gnu",
     "m68k-linux-gnu-coldfire", "microblaze-linux-gnu",
     "microblazeel-linux-gnu", "mips64-n32-linux-gnu", "mips-linux-gnu",
     "mips-linux-gnu-soft", "nios2-linux-gnu", "or1k-linux-gnu-soft",
     "powerpc-linux-gnu", "powerpc-linux-gnu-soft", "s390-linux-gnu",
     "sh4-linux-gnu", "sh4eb-linux-gnu", "sparcv9-linux-gnu"]),
   ("powerpc64le",
    ["powerpc64le-linux-gnu", "powerpc64le-linux-gnu-disable-multi-arch",
     "powerpc64le-linux-gnu-power10", "powerpc64le-linux-gnu-power9",
     "powerpc64le-linux-gnu-power8",
     "powerpc64le-linux-gnu-power10-disable-multi-arch",
     "powerpc64le-linux-gnu-power9-disable-multi-arch",
     "powerpc64le-linux-gnu-power8-disable-multi-arch"]),
   ("powerpc64",
    ["powerpc64-linux-gnu-power8", "powerpc64-linux-gnu-power7",
     "powerpc64-linux-gnu-power6x", "powerpc64-linux-gnu-power6",
     "powerpc64-linux-gnu-power5+", "powerpc64-linux-gnu-power5",
     "powerpc64-linux-gnu-power4",
     "powerpc64-linux-gnu-power8-disable-multi-arch",
     "powerpc64-linux-gnu-power7-disable-multi-arch",
     "powerpc64-linux-gnu-power6x-disable-multi-arch",
     "powerpc64-linux-gnu-power6-disable-multi-arch",
     "powerpc64-linux-gnu-power5+-disable-multi-arch",
     "powerpc64-linux-gnu-power5-disable-multi-arch",
     "powerpc64-linux-gnu-power4-disable-multi-arch",
     "powerpc64-linux-gnu", "powerpc64-linux-gnu-disable-multi-arch"]),
   ("powerpc",
    ["powerpc-linux-gnu-power8", "powerpc-linux-gnu-power7",
     "powerpc-linux-gnu-power6x", "powerpc-linux-gnu-power6",
     "powerpc-linux-gnu-power5+", "powerpc-linux-gnu-power5",
     "powerpc-linux-gnu-power4",
     "powerpc-linux-gnu-power8-disable-multi-arch",
     "powerpc-linux-gnu-power7-disable-multi-arch",
     "powerpc-linux-gnu-power6x-disable-multi-arch",
     "powerpc-linux-gnu-power6-disable-multi-arch",
     "powerpc-linux-gnu-power5+-disable-multi-arch",
     "powerpc-linux-gnu-power5-disable-multi-arch",
     "powerpc-linux-gnu-power4-disable-multi-arch",
     "powerpc-linux-gnu"]),
   ("zseries",
    ["s390-linux-gnu", "s390x-linux-gnu", "s390x-linux-gnu-z10",
     "s390x-linux-gnu-z196", "s390x-linux-gnu-z900"]),
   ("arm",
    ["arm-linux-gnueabihf", "arm-linux-gnueabihf-armv7-disable-multi-arch",
     "armv5-linux-gnueabihf", "armv6-linux-gnueabihf",
     "armv6t2-linux-gnueabihf", "armv7-linux-gnueabihf",
     "armv7-neon-linux-gnueabihf", "armv7-neonhard-linux-gnueabihf",
     "armv7-thumb-linux-gnueabihf"]),
   ("armeb",
    ["armeb-linux-gnueabihf", "armeb-v5-linux-gnueabihf",
     "armeb-v6-linux-gnueabihf", "armeb-v6t2-linux-gnueabihf",
     "armeb-v7-linux-gnueabihf", "armeb-v7neon-linux-gnueabihf",
     "armeb-v7neonhard-linux-gnueabihf"])]

/-- Mirror of the expander in `main`:
`chain.from_iterable(SPECIAL_LISTS.get(c, [c]) for c in opts.configs)`. -/
def expandConfigs (tokens : List String) : List String :=
  tokens.flatMap (fun c => (SPECIAL_LISTS.lookup c).getD [c])

/-- Observable effects of `Context.run`, serialized into a trace:
directory wipe-and-recreate (`remove_recreate_dirs`), per-target log-file
creation (`create_file` in `run_cmd`), submission of a command to the worker
pool (`executor.submit`), return of a command (`future.result`), the colored
PASS/FAIL line, and the plain identifier print of `list_configs`. -/
inductive Event where
  | removeRecreate (dir : String)
  | createLog (act : String) (abi : String)
  | submit (act : String) (abi : String) (cmd : List String)
  | complete (act : String) (abi : String) (rc : Int)
  | printResult (act : String) (abi : String) (pass : Bool)
  | printAbi (abi : String)
deriving Repr, DecidableEq

/-- The table `cmds` of `Context.run`: one bucket of `(abi, command)` pairs
per action, in `ACTIONS` order. -/
abbrev CmdsTable := List (String × List (String × List String))

/-- Python dictionary assignment `d[k] = v` on an association list: replace
in place when the key exists (keeping its position), append otherwise. -/
def upsert (k : String) (v : List String) :
    List (String × List String) → List (String × List String)
  | [] => [(k, v)]
  | (k2, v2) :: rest =>
    if k2 = k then (k, v) :: rest else (k2, v2) :: upsert k v rest

/-- The assignment `cmds[act][abi] = v` of `Context.run`. -/
def setCmd (act abi : String) (v : List String) : CmdsTable → CmdsTable
  | [] => []
  | (a, bucket) :: rest =>
    if a = act then (a, upsert abi v bucket) :: rest
    else (a, bucket) :: setCmd act abi v rest

/-- The inner loop `for act in cmd[1]` of `Context.run`: build one target
command per prerequisite stage.  The dictionary access
`self.glibc_configs[abi]` raises `KeyError` on an unknown target, modelled
as `Except.error`. -/
def buildActs (env : Env) (ctx : Ctx) (execOut : String → String)
    (cat : List (String × Glibc)) (abi : String) :
    List String → CmdsTable → Except String CmdsTable
  | [], cmds => .ok cmds
  | act :: rest, cmds =>
    match cat.lookup abi with
    | none => .error ("KeyError: " ++ abi)
    | some g =>
      buildActs env ctx execOut cat abi rest
        (setCmd act abi (cmdFor env ctx execOut g act) cmds)

/-- The outer loop `for abi in glibcs` of `Context.run`: build every stage
command for the target, then (unless `keep`) wipe and recreate its build
directory.  Returns the events performed before any uncaught error together
with the filled table or the error. -/
def buildPhase (env : Env) (ctx : Ctx) (execOut : String → String)
    (cat : List (String × Glibc)) (stages : List String) :
    List String → CmdsTable → List Event × Except String CmdsTable
  | [], cmds => ([], .ok cmds)
  | abi :: rest, cmds =>
    match buildActs env ctx execOut cat abi stages cmds with
    | .error e => ([], .error e)
    | .ok cmds2 =>
      let evs := if ctx.keep then []
                 else [Event.removeRecreate (build_dir env abi)]
      let r := buildPhase env ctx execOut cat stages rest cmds2
      (evs ++ r.1, r.2)

/-- Trace of one stage bucket: all commands are submitted to the pool first
(the `future_to_abi` comprehension), then each completion is collected and
reported as it finishes (`as_completed`).  The completion order within the
bucket is arbitrary and is supplied by the `sched` interleaving oracle; the
exit status of each external command by the `exitCode` oracle. -/
def segTrace (exitCode : String → String → Int) (sched : List String → List String)
    (act : String) (bucket : List (String × List String)) : List Event :=
  bucket.map (fun p => Event.submit act p.1 p.2) ++
  (sched (bucket.map Prod.fst)).flatMap (fun abi =>
    let rc := exitCode act abi
    [Event.createLog act abi, Event.complete act abi rc,
     Event.printResult act abi (rc == 0)])

/-- The executor loop `for action, cmds in cmds.items()` of `Context.run`:
stage buckets are drained one after the other, in table order. -/
def execPhase (exitCode : String → String → Int)
    (sched : List String → List String) : CmdsTable → List Event
  | [] => []
  | (act, bucket) :: rest =>
    segTrace exitCode sched act bucket ++ execPhase exitCode sched rest

/-- Mirror of `Context.run`: expand an empty target list to all sorted
catalog keys, short-circuit the `list` action, build all per-target stage
commands, then execute the stage buckets.  The result is the serialized
event trace plus the uncaught exception, if any. -/
def Context.run (env : Env) (ctx : Ctx) (cat : List (String × Glibc))
    (execOut : String → String) (exitCode : String → String → Int)
    (sched : List String → List String)
    (action : String) (glibcs0 : List String) : List Event × Option String :=
  let glibcs := if glibcs0.isEmpty then
                  List.insertionSort (fun a b => a ≤ b) (cat.map Prod.fst)
                else glibcs0
  if action = "list" then (glibcs.map Event.printAbi, none)
  else
    match CMD_MAP_stages.lookup action with
    | none => ([], some ("KeyError: " ++ action))
    | some stages =>
      match buildPhase env ctx execOut cat stages glibcs
              (ACTIONS.map (fun a => (a, ([] : List (String × List String))))) with
      | (evs, .error e) => (evs, some e)
      | (evs, .ok cmds) => (evs ++ execPhase exitCode sched cmds, none)

/-- The stage bucket an event belongs to, when it has one. -/
def eventStage : Event → Option String
  | .removeRecreate _ => none
  | .createLog a _ => some a
  | .submit a _ _ => some a
  | .complete a _ _ => some a
  | .printResult a _ _ => some a
  | .printAbi _ => none

/-- Whether an event is a pool submission. -/
def isSubmit : Event → Bool
  | .submit _ _ _ => true
  | _ => false

/-- A concrete settings environment used for instantiating theorems. -/
def env0 : Env :=
  { srcdir := "/src/glibc", builddir := "/build", logsdir := "/logs",
    compilers := "/compilers", gccversion := "", machine := "x86_64" }

/-- A concrete options context used for instantiating theorems. -/
def ctx0 : Ctx :=
  { parallelize := 1, build_jobs := 4, run_built_tests := "no",
    extra_config_opts := [], keep := false }

/-- The compiler `Config` of the `x86_64-linux-gnu` family. -/
def cfg_x86_64 : Config := { arch := "x86_64", os := "linux-gnu", variant := none }

/-- The catalog entry `x86_64-linux-gnu-v3` (the `v3` variant with extra
compiler flag `-march=x86-64-v3`), as `add_all_configs` constructs it. -/
def gV3 : Glibc :=
  mkGlibc cfg_x86_64 { variant := some "v3", ccopts := some "-march=x86-64-v3" }

/-- A one-entry catalog used for instantiating scheduler theorems cheaply. -/
def gT1 : Glibc := mkGlibc { arch := "t1", os := "linux-gnu", variant := none } {}

/-- Its association list form; the single key is `t1-linux-gnu`. -/
def smallCat : List (String × Glibc) := [(gT1.name, gT1)]

/-- A target list containing one valid and one unresolvable identifier. -/
def badTargets : List String := ["x86_64-linux-gnu", "no-such-target"]

/-- A catalog state already holding the identifier `x86_64-linux-gnu`, used
to instantiate the duplicate-registration theorem. -/
def stDup : CatState :=
  { configs := [], glibc_configs := [("x86_64-linux-gnu", gT1)] }

/-! Helper lemmas shared between several claims. -/

lemma lookup_isSome_iff {α : Type} (k : String) (l : List (String × α)) :
    (l.lookup k).isSome = true ↔ k ∈ l.map Prod.fst := by
  induction l with
  | nil => simp [List.lookup]
  | cons p rest ih =>
    obtain ⟨k2, v⟩ := p
    by_cases h : k = k2
    · subst h; simp [List.lookup]
    · have hb : (k == k2) = false := by simp [h]
      simp [List.lookup, hb, ih, h]

lemma addAll_ok : exceptOk add_all_configs = true := by decide

lemma run_list_eq (env : Env) (ctx : Ctx) (cat : List (String × Glibc))
    (execOut : String → String) (exitCode : String → String → Int)
    (sched : List String → List String) (glibcs : List String) :
    Context.run env ctx cat execOut exitCode sched "list" glibcs =
      ((if glibcs.isEmpty then
          List.insertionSort (fun a b => a ≤ b) (cat.map Prod.fst)
        else glibcs).map Event.printAbi, none) := rfl

lemma catalogKeys_nodup : catalogKeys.Nodup := by decide

/-- C1 counterexample: the stage chain the resolver returns for the test
action (`check`) runs `configure` before `copylibs`, not the claimed
`[copy-support-libs, configure, compile, test]` order. -/
theorem C1_counterexample :
    stagesOf "check" ≠ some ["copylibs", "configure", "make", "check"] := by decide

/-- C1 (amended): for every valid terminal action the resolver returns the
fixed, deterministic chain of the source table; in particular requesting the
test action yields `[configure, copylibs, make, check]`, with `configure`
first and `copylibs` second. -/
theorem C1_stage_table :
    stagesOf "copylibs" = some [] ∧
    stagesOf "configure" = some ["configure", "copylibs"] ∧
    stagesOf "make" = some ["configure", "copylibs", "make"] ∧
    stagesOf "check" = some ["configure", "copylibs", "make", "check"] ∧
    stagesOf "check-abi" = some ["configure", "make", "check-abi"] ∧
    stagesOf "update-abi" = some ["configure", "make", "update-abi"] ∧
    stagesOf "bench-build" = some ["configure", "make", "bench-build"] := by
  decide

/-- C7: the expander is the order-preserving flattening of the token list:
it distributes over concatenation (hence performs no deduplication), maps a
non-alias token to itself, and substitutes a group alias by its member list
in place. -/
theorem C7_expander_flattening :
    (∀ xs ys, expandConfigs (xs ++ ys) = expandConfigs xs ++ expandConfigs ys) ∧
    (∀ t, SPECIAL_LISTS.lookup t = none → expandConfigs [t] = [t]) ∧
    (∀ g ms, SPECIAL_LISTS.lookup g = some ms → expandConfigs [g] = ms) := by
  refine ⟨fun xs ys => ?_, fun t ht => ?_, fun g ms hg => ?_⟩
  · simp [expandConfigs]
  · simp [expandConfigs, ht]
  · simp [expandConfigs, hg]

/-- Witness for C7 at a concrete input: one group alias followed by one
literal target identifier. -/
theorem C7_expander_flattening_witness :
    expandConfigs (["zseries"] ++ ["x86_64-linux-gnu"]) =
      ["s390-linux-gnu", "s390x-linux-gnu", "s390x-linux-gnu-z10",
       "s390x-linux-gnu-z196", "s390x-linux-gnu-z900"] ++ ["x86_64-linux-gnu"] := by
  have h1 := C7_expander_flattening.1 ["zseries"] ["x86_64-linux-gnu"]
  have h2 := C7_expander_flattening.2.2 "zseries"
    ["s390-linux-gnu", "s390x-linux-gnu", "s390x-linux-gnu-z10",
     "s390x-linux-gnu-z196", "s390x-linux-gnu-z900"] (by decide)
  have h3 := C7_expander_flattening.2.1 "x86_64-linux-gnu" (by decide)
  rw [h1, h2, h3]

/-- C9: the copy-support-libs command resolves each runtime-support library
by invoking the target compiler with `-print-file-name`, falls back to the
alternate name `libgcc_s.so` exactly when the first query echoes the queried
name back, and copies the resolved libraries into the build directory. -/
theorem C9_copylibs_resolution (env : Env) (execOut : String → String) (g : Glibc) :
    (execOut (g.tool_name env "gcc" ++ " -print-file-name=" ++ "libgcc_s.so.1") ≠
        "libgcc_s.so.1" →
      g.copylibs env execOut =
        ["cp",
         execOut (g.tool_name env "gcc" ++ " -print-file-name=" ++ "libgcc_s.so.1"),
         execOut (g.tool_name env "gcc" ++ " -print-file-name=" ++ "libstdc++.so.6"),
         build_dir env g.name]) ∧
    (execOut (g.tool_name env "gcc" ++ " -print-file-name=" ++ "libgcc_s.so.1") =
        "libgcc_s.so.1" →
      g.copylibs env execOut =
        ["cp",
         execOut (g.tool_name env "gcc" ++ " -print-file-name=" ++ "libgcc_s.so"),
         execOut (g.tool_name env "gcc" ++ " -print-file-name=" ++ "libstdc++.so.6"),
         build_dir env g.name]) := by
  constructor <;> intro h <;> simp [Glibc.copylibs, Glibc.lib_name, h]

/-- Witness for C9 at a concrete target and an echo oracle (every query
returns the command string itself, hence never the bare library name). -/
theorem C9_copylibs_resolution_witness :
    gV3.copylibs env0 (fun s => s) =
      ["cp",
       gV3.tool_name env0 "gcc" ++ " -print-file-name=" ++ "libgcc_s.so.1",
       gV3.tool_name env0 "gcc" ++ " -print-file-name=" ++ "libstdc++.so.6",
       build_dir env0 gV3.name] :=
  (C9_copylibs_resolution env0 (fun s => s) gV3).1 (by decide)

/-- C10: a `list` invocation only prints the expanded target identifiers:
its trace contains no directory removal, no log-file creation and no command
submission or completion, and it raises no error, whatever the keep flag. -/
theorem C10_list_no_effects (env : Env) (ctx : Ctx) (cat : List (String × Glibc))
    (execOut : String → String) (exitCode : String → String → Int)
    (sched : List String → List String) (glibcs : List String) :
    (Context.run env ctx cat execOut exitCode sched "list" glibcs).2 = none ∧
    ∀ e ∈ (Context.run env ctx cat execOut exitCode sched "list" glibcs).1,
      ∃ abi, e = Event.printAbi abi := by
  refine ⟨by rw [run_list_eq], ?_⟩
  intro e he
  rw [run_list_eq] at he
  rcases List.mem_map.mp he with ⟨abi, -, rfl⟩
  exact ⟨abi, rfl⟩

/-- Witness for C10 at a concrete invocation. -/
theorem C10_list_no_effects_witness :
    (Context.run env0 ctx0 [] (fun s => s) (fun _ _ => 0) id "list"
        ["x86_64-linux-gnu"]).2 = none ∧
    ∃ abi, Event.printAbi "x86_64-linux-gnu" = Event.printAbi abi :=
  ⟨(C10_list_no_effects env0 ctx0 [] (fun s => s) (fun _ _ => 0) id
      ["x86_64-linux-gnu"]).1,
   (C10_list_no_effects env0 ctx0 [] (fun s => s) (fun _ _ => 0) id
      ["x86_64-linux-gnu"]).2 (Event.printAbi "x86_64-linux-gnu") (by decide)⟩

/-- C6: for an empty target-token list the run expands to the list of every
registered catalog identifier, sorted lexicographically and without
duplicates (shown on the `list` action, which displays the expansion). -/
theorem C6_empty_expansion (env : Env) (ctx : Ctx) (execOut : String → String)
    (exitCode : String → String → Int) (sched : List String → List String) :
    (Context.run env ctx theCatalog execOut exitCode sched "list" []).1 =
      (List.insertionSort (fun a b => a ≤ b) catalogKeys).map Event.printAbi ∧
    (List.insertionSort (fun a b => a ≤ b) catalogKeys).Perm catalogKeys ∧
    (List.insertionSort (fun a b => a ≤ b) catalogKeys).Sorted (fun a b => a ≤ b) ∧
    (List.insertionSort (fun a b => a ≤ b) catalogKeys).Nodup := by
  refine ⟨?_, List.perm_insertionSort _ _, List.sorted_insertionSort _ _, ?_⟩
  · rw [run_list_eq]; rfl
  · exact (List.perm_insertionSort _ _).nodup_iff.mpr catalogKeys_nodup

/-- C8 counterexample: the catalog target `x86_64-linux-gnu-v3` carries the
extra compiler flag `-march=x86-64-v3`, yet the `AR` path in its configure
command is not suffixed with that flag (only the unsuffixed path appears). -/
theorem C8_counterexample :
    theCatalog.lookup "x86_64-linux-gnu-v3" = some gV3 ∧
    gV3.ccopts = some "-march=x86-64-v3" ∧
    ("AR=" ++ toolBase env0 gV3 "ar") ∈ gV3.configure env0 [] ∧
    ("AR=" ++ toolBase env0 gV3 "ar" ++ " " ++ "-march=x86-64-v3") ∉
      gV3.configure env0 [] := by
  decide

/-- C8 (amended): for a target with extra compiler flags, the configure
command carries an explicit path for every cross tool, with the flags
appended only to the compiler entries `CC` and `CXX`; the other tool paths
(`ar`, `as`, `ld`, `nm`, `objcopy`, `objdump`, `ranlib`, `readelf`, `strip`,
and `mig`, present exactly when the OS variant is `gnu`) are unsuffixed. -/
theorem C8_configure_tools (env : Env) (g : Glibc) (extra : List String)
    (o : String) (hcc : g.ccopts = some o) :
    g.configure env extra =
      [env.srcdir ++ "/configure",
       "--prefix=/usr",
       "--build=" ++ build_triplet env,
       "--host=" ++ g.host_triplet,
       "CC=" ++ (toolBase env g "gcc" ++ " " ++ o),
       "CXX=" ++ (toolBase env g "g++" ++ " " ++ o),
       "AR=" ++ toolBase env g "ar",
       "AS=" ++ toolBase env g "as",
       "LD=" ++ toolBase env g "ld",
       "NM=" ++ toolBase env g "nm",
       "OBJCOPY=" ++ toolBase env g "objcopy",
       "OBJDUMP=" ++ toolBase env g "objdump",
       "RANLIB=" ++ toolBase env g "ranlib",
       "READELF=" ++ toolBase env g "readelf",
       "STRIP=" ++ toolBase env g "strip"] ++
      (if g.os = "gnu" then ["MIG=" ++ toolBase env g "mig"] else []) ++
      extra ++ g.cfg := by
  simp [Glibc.configure, Glibc.tool_name, hcc]

/-- Witness for C8 at the concrete catalog target `x86_64-linux-gnu-v3`. -/
theorem C8_configure_tools_witness :
    gV3.configure env0 [] =
      [env0.srcdir ++ "/configure",
       "--prefix=/usr",
       "--build=" ++ build_triplet env0,
       "--host=" ++ gV3.host_triplet,
       "CC=" ++ (toolBase env0 gV3 "gcc" ++ " " ++ "-march=x86-64-v3"),
       "CXX=" ++ (toolBase env0 gV3 "g++" ++ " " ++ "-march=x86-64-v3"),
       "AR=" ++ toolBase env0 gV3 "ar",
       "AS=" ++ toolBase env0 gV3 "as",
       "LD=" ++ toolBase env0 gV3 "ld",
       "NM=" ++ toolBase env0 gV3 "nm",
       "OBJCOPY=" ++ toolBase env0 gV3 "objcopy",
       "OBJDUMP=" ++ toolBase env0 gV3 "objdump",
       "RANLIB=" ++ toolBase env0 gV3 "ranlib",
       "READELF=" ++ toolBase env0 gV3 "readelf",
       "STRIP=" ++ toolBase env0 gV3 "strip"] ++
      (if gV3.os = "gnu" then ["MIG=" ++ toolBase env0 gV3 "mig"] else []) ++
      [] ++ gV3.cfg :=
  C8_configure_tools env0 gV3 [] "-march=x86-64-v3" rfl

lemma lookup_eq_none_iff {α : Type} (k : String) (l : List (String × α)) :
    l.lookup k = none ↔ k ∉ l.map Prod.fst := by
  rw [← lookup_isSome_iff]
  cases l.lookup k <;> simp

lemma addGlibcs_ne_ok_of_dup (gs : List Glibc) (st : CatState)
    (h : ∃ g ∈ gs, g.name ∈ st.glibc_configs.map Prod.fst) (st2 : CatState) :
    addGlibcs st gs ≠ .ok st2 := by
  induction gs generalizing st with
  | nil => rcases h with ⟨g, hg, -⟩; cases hg
  | cons g rest ih =>
    simp only [addGlibcs]
    by_cases hk : (st.glibc_configs.lookup g.name).isSome
    · rw [if_pos hk]; intro hc; cases hc
    · rw [if_neg hk]
      apply ih
      rcases h with ⟨g2, hg2, hmem⟩
      rcases List.mem_cons.mp hg2 with rfl | hg2r
      · exact absurd ((lookup_isSome_iff _ _).mpr hmem) hk
      · exact ⟨g2, hg2r, by simp [hmem]⟩

lemma addGlibcs_nodup (gs : List Glibc) (st st2 : CatState)
    (h : addGlibcs st gs = .ok st2)
    (hnd : (st.glibc_configs.map Prod.fst).Nodup) :
    (st2.glibc_configs.map Prod.fst).Nodup := by
  induction gs generalizing st with
  | nil =>
    simp only [addGlibcs] at h
    cases h
    exact hnd
  | cons g rest ih =>
    simp only [addGlibcs] at h
    by_cases hk : (st.glibc_configs.lookup g.name).isSome
    · rw [if_pos hk] at h; cases h
    · rw [if_neg hk] at h
      refine ih _ h ?_
      have hnin : g.name ∉ st.glibc_configs.map Prod.fst := by
        rw [← lookup_isSome_iff]
        simpa using hk
      simp [List.nodup_append, hnd, hnin]

/-- C5: registering a configuration one of whose target identifiers already
exists in the catalog never succeeds (the process aborts), registration
preserves uniqueness of target identifiers, and the full fixed catalog
construction succeeds with all identifiers unique. -/
theorem C5_duplicate_registration_fatal :
    (∀ st a st2, (∃ g ∈ (mkConfig a).2, g.name ∈ st.glibc_configs.map Prod.fst) →
        add_config st a ≠ .ok st2) ∧
    (∀ st a st2, add_config st a = .ok st2 →
        (st.glibc_configs.map Prod.fst).Nodup →
        (st2.glibc_configs.map Prod.fst).Nodup) ∧
    exceptOk add_all_configs = true ∧ catalogKeys.Nodup := by
  refine ⟨?_, ?_, addAll_ok, catalogKeys_nodup⟩
  · intro st a st2 hdup
    simp only [add_config]
    by_cases hc : (st.configs.lookup (mkConfig a).1.name).isSome
    · rw [if_pos hc]; intro hcon; cases hcon
    · rw [if_neg hc]
      exact addGlibcs_ne_ok_of_dup (mkConfig a).2
        { st with configs := st.configs ++ [((mkConfig a).1.name, (mkConfig a).1)] }
        hdup st2
  · intro st a st2 h hnd
    simp only [add_config] at h
    by_cases hc : (st.configs.lookup (mkConfig a).1.name).isSome
    · rw [if_pos hc] at h; cases h
    · rw [if_neg hc] at h
      exact addGlibcs_nodup _ _ _ h hnd

/-- Witness for C5: re-registering the `x86_64-linux-gnu` identifier on a
state that already holds it is rejected. -/
theorem C5_duplicate_registration_fatal_witness :
    add_config stDup { arch := "x86_64", os_name := "linux-gnu" } ≠ .ok stDup :=
  C5_duplicate_registration_fatal.1 stDup { arch := "x86_64", os_name := "linux-gnu" }
    stDup ⟨mkGlibc { arch := "x86_64", os := "linux-gnu", variant := none } {},
           by decide, by decide⟩

/-- C2 counterexample: requesting the test pipeline for one valid target and
one unresolvable name aborts the whole run with an uncaught lookup error
after wiping the valid target's build directory: no command is submitted for
the valid target and no PASS/FAIL is reported for it. -/
theorem C2_counterexample :
    Context.run env0 ctx0 theCatalog (fun s => s) (fun _ _ => 0) id "check"
        badTargets =
      ([Event.removeRecreate "/build/x86_64-linux-gnu"],
       some "KeyError: no-such-target") := by
  decide

lemma buildActs_ok_of_found (env : Env) (ctx : Ctx) (execOut : String → String)
    (cat : List (String × Glibc)) (abi : String) (g : Glibc)
    (hfound : cat.lookup abi = some g) (acts : List String) (cmds : CmdsTable) :
    ∃ cmds2, buildActs env ctx execOut cat abi acts cmds = .ok cmds2 := by
  induction acts generalizing cmds with
  | nil => exact ⟨cmds, rfl⟩
  | cons act rest ih =>
    simp only [buildActs, hfound]
    exact ih _

lemma buildPhase_error_of_missing (env : Env) (ctx : Ctx)
    (execOut : String → String) (cat : List (String × Glibc))
    (stages : List String) (hs : stages ≠ []) (glibcs : List String)
    (cmds : CmdsTable) (hbad : ∃ b ∈ glibcs, cat.lookup b = none) :
    (∃ e, (buildPhase env ctx execOut cat stages glibcs cmds).2 = .error e) ∧
    ∀ ev ∈ (buildPhase env ctx execOut cat stages glibcs cmds).1,
      ∃ d, ev = Event.removeRecreate d := by
  induction glibcs generalizing cmds with
  | nil => rcases hbad with ⟨b, hb, -⟩; cases hb
  | cons abi rest ih =>
    cases hl : cat.lookup abi with
    | none =>
      obtain ⟨s0, srest, rfl⟩ : ∃ s0 srest, stages = s0 :: srest := by
        cases stages with
        | nil => exact absurd rfl hs
        | cons s0 srest => exact ⟨s0, srest, rfl⟩
      simp only [buildPhase, buildActs, hl]
      exact ⟨⟨"KeyError: " ++ abi, rfl⟩, by intro ev hev; cases hev⟩
    | some g =>
      obtain ⟨cmds2, hok⟩ :=
        buildActs_ok_of_found env ctx execOut cat abi g hl stages cmds
      have hbad2 : ∃ b ∈ rest, cat.lookup b = none := by
        rcases hbad with ⟨b, hb, hbn⟩
        rcases List.mem_cons.mp hb with rfl | hbr
        · rw [hl] at hbn; cases hbn
        · exact ⟨b, hbr, hbn⟩
      obtain ⟨⟨e, he⟩, hevs⟩ := ih cmds2 hbad2
      simp only [buildPhase, hok]
      refine ⟨⟨e, he⟩, ?_⟩
      intro ev hev
      rcases List.mem_append.mp hev with hev1 | hev2
      · by_cases hkeep : ctx.keep
        · simp [hkeep] at hev1
        · simp [hkeep] at hev1
          exact ⟨_, hev1⟩
      · exact hevs ev hev2

lemma run_build_eq (env : Env) (ctx : Ctx) (cat : List (String × Glibc))
    (execOut : String → String) (exitCode : String → String → Int)
    (sched : List String → List String) (action : String)
    (glibcs : List String) (stages : List String)
    (hlist : action ≠ "list") (hact : CMD_MAP_stages.lookup action = some stages)
    (hne : glibcs.isEmpty = false) :
    Context.run env ctx cat execOut exitCode sched action glibcs =
      (match buildPhase env ctx execOut cat stages glibcs
          (ACTIONS.map (fun a => (a, ([] : List (String × List String))))) with
       | (evs, .error e) => (evs, some e)
       | (evs, .ok cmds) => (evs ++ execPhase exitCode sched cmds, none)) := by
  simp only [Context.run, hne, hact, if_neg hlist, Bool.false_eq_true, if_false]

/-- C2 (amended): for any action whose stage chain is nonempty, an
unresolvable name anywhere in the target list makes the whole invocation
abort with an uncaught lookup error during command construction: no stage
command is submitted for any target — valid targets included — and no
PASS/FAIL is reported; only build-directory wipes of targets processed
before the error occur. -/
theorem C2_unknown_target_aborts (env : Env) (ctx : Ctx)
    (cat : List (String × Glibc)) (execOut : String → String)
    (exitCode : String → String → Int) (sched : List String → List String)
    (action : String) (glibcs : List String) (stages : List String)
    (bad : String) (hact : CMD_MAP_stages.lookup action = some stages)
    (hne : stages ≠ []) (hbad : bad ∈ glibcs) (hmiss : cat.lookup bad = none) :
    (∃ e, (Context.run env ctx cat execOut exitCode sched action glibcs).2 =
       some e) ∧
    ∀ ev ∈ (Context.run env ctx cat execOut exitCode sched action glibcs).1,
      ∃ d, ev = Event.removeRecreate d := by
  have hlist : action ≠ "list" := by
    rintro rfl
    rw [show CMD_MAP_stages.lookup "list" = none from rfl] at hact
    cases hact
  have hnonempty : glibcs.isEmpty = false := by
    cases glibcs with
    | nil => cases hbad
    | cons x xs => rfl
  rw [run_build_eq env ctx cat execOut exitCode sched action glibcs stages
        hlist hact hnonempty]
  obtain ⟨⟨e, he⟩, hevs⟩ := buildPhase_error_of_missing env ctx execOut cat
    stages hne glibcs (ACTIONS.map (fun a => (a, ([] : List (String × List String)))))
    ⟨bad, hbad, hmiss⟩
  rcases hbp : buildPhase env ctx execOut cat stages glibcs
      (ACTIONS.map (fun a => (a, ([] : List (String × List String))))) with ⟨evs, r⟩
  rw [hbp] at he hevs
  cases r with
  | error e2 => exact ⟨⟨e2, rfl⟩, hevs⟩
  | ok cmds => cases he

/-- Witness for C2 at a concrete invocation over the one-entry catalog. -/
theorem C2_unknown_target_aborts_witness :
    (∃ e, (Context.run env0 ctx0 smallCat (fun s => s) (fun _ _ => 0) id "check"
       ["nope"]).2 = some e) ∧
    ∀ ev ∈ (Context.run env0 ctx0 smallCat (fun s => s) (fun _ _ => 0) id "check"
       ["nope"]).1, ∃ d, ev = Event.removeRecreate d :=
  C2_unknown_target_aborts env0 ctx0 smallCat (fun s => s) (fun _ _ => 0) id
    "check" ["nope"] ["configure", "copylibs", "make", "check"] "nope"
    (by decide) (by decide) (by decide) (by decide)

lemma lookup_mem {α : Type} {l : List (String × α)} {k : String} {v : α}
    (h : l.lookup k = some v) : (k, v) ∈ l := by
  induction l with
  | nil => cases h
  | cons p rest ih =>
    obtain ⟨k2, v2⟩ := p
    by_cases hk : k = k2
    · subst hk
      simp [List.lookup] at h
      simp [h]
    · have hb : (k == k2) = false := by simp [hk]
      simp only [List.lookup, hb] at h
      exact List.mem_cons_of_mem _ (ih h)

lemma mem_keys_upsert_self (k : String) (v : List String)
    (b : List (String × List String)) : k ∈ (upsert k v b).map Prod.fst := by
  induction b with
  | nil => simp [upsert]
  | cons p rest ih =>
    obtain ⟨k2, v2⟩ := p
    by_cases hk : k2 = k
    · simp [upsert, hk]
    · simp [upsert, hk, ih]

lemma mem_keys_upsert_mono (x k : String) (v : List String)
    (b : List (String × List String)) (h : x ∈ b.map Prod.fst) :
    x ∈ (upsert k v b).map Prod.fst := by
  induction b with
  | nil => cases h
  | cons p rest ih =>
    obtain ⟨k2, v2⟩ := p
    by_cases hk : k2 = k
    · subst hk
      simp only [upsert, if_pos rfl, List.map_cons, List.mem_cons]
      simpa using h
    · simp only [upsert, if_neg hk, List.map_cons, List.mem_cons] at h ⊢
      rcases h with rfl | hx
      · exact Or.inl rfl
      · exact Or.inr (ih hx)

lemma lookup_setCmd_self (act abi : String) (v : List String) (t : CmdsTable)
    (b : List (String × List String)) (h : t.lookup act = some b) :
    (setCmd act abi v t).lookup act = some (upsert abi v b) := by
  induction t with
  | nil => cases h
  | cons p rest ih =>
    obtain ⟨a2, b2⟩ := p
    by_cases hk : a2 = act
    · subst hk
      simp [List.lookup] at h
      subst h
      simp [setCmd, List.lookup]
    · have hb : (act == a2) = false := by simp [Ne.symm hk]
      simp only [List.lookup, hb] at h
      simp only [setCmd, if_neg hk, List.lookup, hb]
      exact ih h

lemma lookup_setCmd_other (a act abi : String) (v : List String) (t : CmdsTable)
    (h : a ≠ act) : (setCmd act abi v t).lookup a = t.lookup a := by
  induction t with
  | nil => rfl
  | cons p rest ih =>
    obtain ⟨a2, b2⟩ := p
    by_cases hk : a2 = act
    · subst hk
      have hb : (a == a2) = false := by simp [h]
      simp [setCmd, List.lookup, hb]
    · by_cases ha : a = a2
      · subst ha
        simp [setCmd, hk, List.lookup]
      · have hb : (a == a2) = false := by simp [ha]
        simp [setCmd, hk, List.lookup, hb, ih]

/-- The property that the bucket of stage `act` exists and contains target
`abi`. -/
def inBucket (act abi : String) (t : CmdsTable) : Prop :=
  ∃ b, t.lookup act = some b ∧ abi ∈ b.map Prod.fst

lemma inBucket_setCmd_mono (act abi act2 abi2 : String) (v : List String)
    (t : CmdsTable) (h : inBucket act abi t) :
    inBucket act abi (setCmd act2 abi2 v t) := by
  obtain ⟨b, hb, habi⟩ := h
  by_cases hk : act = act2
  · subst hk
    exact ⟨upsert abi2 v b, lookup_setCmd_self act abi2 v t b hb,
           mem_keys_upsert_mono abi abi2 v b habi⟩
  · exact ⟨b, by rw [lookup_setCmd_other act act2 abi2 v t hk]; exact hb, habi⟩

lemma isSome_setCmd_mono (a act abi : String) (v : List String) (t : CmdsTable)
    (h : (t.lookup a).isSome) : ((setCmd act abi v t).lookup a).isSome := by
  by_cases hk : a = act
  · subst hk
    obtain ⟨b, hb⟩ := Option.isSome_iff_exists.mp h
    rw [lookup_setCmd_self a abi v t b hb]
    rfl
  · rw [lookup_setCmd_other a act abi v t hk]
    exact h

lemma inBucket_setCmd_self (act abi : String) (v : List String) (t : CmdsTable)
    (h : (t.lookup act).isSome) : inBucket act abi (setCmd act abi v t) := by
  obtain ⟨b, hb⟩ := Option.isSome_iff_exists.mp h
  exact ⟨upsert abi v b, lookup_setCmd_self act abi v t b hb,
         mem_keys_upsert_self abi v b⟩

lemma buildActs_inBucket_mono (env : Env) (ctx : Ctx) (execOut : String → String)
    (cat : List (String × Glibc)) (abi2 : String) (acts : List String)
    (cmds cmds2 : CmdsTable) (act abi : String)
    (h : buildActs env ctx execOut cat abi2 acts cmds = .ok cmds2)
    (hin : inBucket act abi cmds) : inBucket act abi cmds2 := by
  induction acts generalizing cmds with
  | nil =>
    simp only [buildActs] at h
    cases h
    exact hin
  | cons a0 rest ih =>
    simp only [buildActs] at h
    cases hl : cat.lookup abi2 with
    | none => rw [hl] at h; cases h
    | some g =>
      rw [hl] at h
      exact ih _ h (inBucket_setCmd_mono act abi a0 abi2 _ cmds hin)

lemma buildActs_isSome_mono (env : Env) (ctx : Ctx) (execOut : String → String)
    (cat : List (String × Glibc)) (abi2 : String) (acts : List String)
    (cmds cmds2 : CmdsTable) (a : String)
    (h : buildActs env ctx execOut cat abi2 acts cmds = .ok cmds2)
    (hin : (cmds.lookup a).isSome) : (cmds2.lookup a).isSome := by
  induction acts generalizing cmds with
  | nil =>
    simp only [buildActs] at h
    cases h
    exact hin
  | cons a0 rest ih =>
    simp only [buildActs] at h
    cases hl : cat.lookup abi2 with
    | none => rw [hl] at h; cases h
    | some g =>
      rw [hl] at h
      exact ih _ h (isSome_setCmd_mono a a0 abi2 _ cmds hin)

lemma buildActs_inBucket_self (env : Env) (ctx : Ctx) (execOut : String → String)
    (cat : List (String × Glibc)) (abi : String) (acts : List String)
    (cmds cmds2 : CmdsTable) (act : String)
    (h : buildActs env ctx execOut cat abi acts cmds = .ok cmds2)
    (hsome : ∀ a ∈ acts, (cmds.lookup a).isSome) (hact : act ∈ acts) :
    inBucket act abi cmds2 := by
  induction acts generalizing cmds with
  | nil => cases hact
  | cons a0 rest ih =>
    simp only [buildActs] at h
    cases hl : cat.lookup abi with
    | none => rw [hl] at h; cases h
    | some g =>
      rw [hl] at h
      rcases List.mem_cons.mp hact with rfl | hr
      · exact buildActs_inBucket_mono env ctx execOut cat abi rest _ cmds2 act abi h
          (inBucket_setCmd_self act abi _ cmds (hsome act (List.mem_cons_self _ _)))
      · exact ih _ h (fun a ha => isSome_setCmd_mono a a0 abi _ cmds
          (hsome a (List.mem_cons_of_mem _ ha))) hr

lemma buildPhase_inBucket_mono (env : Env) (ctx : Ctx) (execOut : String → String)
    (cat : List (String × Glibc)) (stages : List String) (glibcs : List String)
    (cmds cmds2 : CmdsTable) (act abi : String)
    (h : (buildPhase env ctx execOut cat stages glibcs cmds).2 = .ok cmds2)
    (hin : inBucket act abi cmds) : inBucket act abi cmds2 := by
  induction glibcs generalizing cmds with
  | nil =>
    simp only [buildPhase] at h
    cases h
    exact hin
  | cons a0 rest ih =>
    simp only [buildPhase] at h
    cases hba : buildActs env ctx execOut cat a0 stages cmds with
    | error e =>
      simp only [hba] at h
      exact Except.noConfusion h
    | ok cmdsm =>
      simp only [hba] at h
      exact ih cmdsm h
        (buildActs_inBucket_mono env ctx execOut cat a0 stages cmds cmdsm act abi
          hba hin)

lemma buildPhase_isSome_mono (env : Env) (ctx : Ctx) (execOut : String → String)
    (cat : List (String × Glibc)) (stages : List String) (glibcs : List String)
    (cmds cmds2 : CmdsTable) (a : String)
    (h : (buildPhase env ctx execOut cat stages glibcs cmds).2 = .ok cmds2)
    (hin : (cmds.lookup a).isSome) : (cmds2.lookup a).isSome := by
  induction glibcs generalizing cmds with
  | nil =>
    simp only [buildPhase] at h
    cases h
    exact hin
  | cons a0 rest ih =>
    simp only [buildPhase] at h
    cases hba : buildActs env ctx execOut cat a0 stages cmds with
    | error e =>
      simp only [hba] at h
      exact Except.noConfusion h
    | ok cmdsm =>
      simp only [hba] at h
      exact ih cmdsm h
        (buildActs_isSome_mono env ctx execOut cat a0 stages cmds cmdsm a hba hin)

lemma buildPhase_inBucket (env : Env) (ctx : Ctx) (execOut : String → String)
    (cat : List (String × Glibc)) (stages : List String) (glibcs : List String)
    (cmds cmds2 : CmdsTable) (act abi : String)
    (h : (buildPhase env ctx execOut cat stages glibcs cmds).2 = .ok cmds2)
    (hsome : ∀ a ∈ stages, (cmds.lookup a).isSome)
    (habi : abi ∈ glibcs) (hact : act ∈ stages) :
    inBucket act abi cmds2 := by
  induction glibcs generalizing cmds with
  | nil => cases habi
  | cons a0 rest ih =>
    simp only [buildPhase] at h
    cases hba : buildActs env ctx execOut cat a0 stages cmds with
    | error e =>
      simp only [hba] at h
      exact Except.noConfusion h
    | ok cmdsm =>
      simp only [hba] at h
      rcases List.mem_cons.mp habi with rfl | hr
      · exact buildPhase_inBucket_mono env ctx execOut cat stages rest cmdsm cmds2
          act abi h
          (buildActs_inBucket_self env ctx execOut cat abi stages cmds cmdsm act
            hba hsome hact)
      · exact ih cmdsm h (fun a ha =>
          buildActs_isSome_mono env ctx execOut cat a0 stages cmds cmdsm a hba
            (hsome a ha)) hr

lemma chains_init_isSome :
    ∀ p ∈ CMD_MAP_stages, ∀ s ∈ p.2,
      (((ACTIONS.map (fun a => (a, ([] : List (String × List String))))).lookup
        s)).isSome := by decide

lemma segTrace_sub_execPhase (exitCode : String → String → Int)
    (sched : List String → List String) (cmds : CmdsTable)
    (act : String) (bucket : List (String × List String))
    (hmem : (act, bucket) ∈ cmds) (e : Event)
    (he : e ∈ segTrace exitCode sched act bucket) :
    e ∈ execPhase exitCode sched cmds := by
  induction cmds with
  | nil => cases hmem
  | cons c rest ih =>
    obtain ⟨a2, b2⟩ := c
    rcases List.mem_cons.mp hmem with heq | hr
    · cases heq
      exact List.mem_append_left _ he
    · exact List.mem_append_right _ (ih hr)

/-- C4: no fail-fast short-circuit: whatever the exit statuses of earlier
commands (`exitCode` is universally quantified, so in particular oracles
where this target or its siblings fail earlier stages), every target of a
successful run has every stage of the chain submitted to the pool, completed,
and reported. -/
theorem C4_no_fail_fast (env : Env) (ctx : Ctx) (cat : List (String × Glibc))
    (execOut : String → String) (exitCode : String → String → Int)
    (sched : List String → List String) (action : String)
    (glibcs : List String) (stages : List String) (trace : List Event)
    (abi stage : String)
    (hsched : ∀ l : List String, (sched l).Perm l)
    (hrun : Context.run env ctx cat execOut exitCode sched action glibcs =
      (trace, none))
    (hact : CMD_MAP_stages.lookup action = some stages)
    (habi : abi ∈ glibcs) (hstage : stage ∈ stages) :
    (∃ cm, Event.submit stage abi cm ∈ trace) ∧
    (∃ rc, Event.complete stage abi rc ∈ trace) ∧
    (∃ b, Event.printResult stage abi b ∈ trace) := by
  have hlist : action ≠ "list" := by
    rintro rfl
    rw [show CMD_MAP_stages.lookup "list" = none from rfl] at hact
    cases hact
  have hnonempty : glibcs.isEmpty = false := by
    cases glibcs with
    | nil => cases habi
    | cons x xs => rfl
  rw [run_build_eq env ctx cat execOut exitCode sched action glibcs stages
        hlist hact hnonempty] at hrun
  rcases hbp : buildPhase env ctx execOut cat stages glibcs
      (ACTIONS.map (fun a => (a, ([] : List (String × List String))))) with ⟨evs, r⟩
  rw [hbp] at hrun
  cases r with
  | error e => simp at hrun
  | ok cmds =>
    simp only at hrun
    have htrace : trace = evs ++ execPhase exitCode sched cmds := by
      cases hrun
      rfl
    have hsome : ∀ a ∈ stages,
        (((ACTIONS.map (fun a => (a, ([] : List (String × List String))))).lookup
          a)).isSome := by
      intro a ha
      exact chains_init_isSome (action, stages) (lookup_mem hact) a ha
    have hbp2 : (buildPhase env ctx execOut cat stages glibcs
        (ACTIONS.map (fun a => (a, ([] : List (String × List String)))))).2 =
        .ok cmds := by rw [hbp]
    obtain ⟨bucket, hlk, hmemkeys⟩ :=
      buildPhase_inBucket env ctx execOut cat stages glibcs _ cmds stage abi
        hbp2 hsome habi hstage
    have hmem : (stage, bucket) ∈ cmds := lookup_mem hlk
    obtain ⟨p, hp, hpfst⟩ := List.mem_map.mp hmemkeys
    have hsub : Event.submit stage abi p.2 ∈ segTrace exitCode sched stage bucket := by
      apply List.mem_append_left
      refine List.mem_map.mpr ⟨p, hp, ?_⟩
      rw [hpfst]
    have habi2 : abi ∈ sched (bucket.map Prod.fst) :=
      ((hsched (bucket.map Prod.fst)).mem_iff).mpr hmemkeys
    have hcomp : Event.complete stage abi (exitCode stage abi) ∈
        segTrace exitCode sched stage bucket := by
      apply List.mem_append_right
      refine List.mem_flatMap.mpr ⟨abi, habi2, ?_⟩
      simp
    have hprint : Event.printResult stage abi (exitCode stage abi == 0) ∈
        segTrace exitCode sched stage bucket := by
      apply List.mem_append_right
      refine List.mem_flatMap.mpr ⟨abi, habi2, ?_⟩
      simp
    subst htrace
    exact ⟨⟨p.2, List.mem_append_right _
              (segTrace_sub_execPhase exitCode sched cmds stage bucket hmem _ hsub)⟩,
           ⟨exitCode stage abi, List.mem_append_right _
              (segTrace_sub_execPhase exitCode sched cmds stage bucket hmem _ hcomp)⟩,
           ⟨exitCode stage abi == 0, List.mem_append_right _
              (segTrace_sub_execPhase exitCode sched cmds stage bucket hmem _ hprint)⟩⟩

/-- Witness for C4: a concrete one-target `check` run over the one-entry
catalog; the `check` stage of the single target is submitted, completed and
reported even though the exit-code oracle fails every stage. -/
theorem C4_no_fail_fast_witness :
    (∃ cm, Event.submit "check" "t1-linux-gnu" cm ∈
      (Context.run env0 ctx0 smallCat (fun s => s) (fun _ _ => 1) id "check"
        ["t1-linux-gnu"]).1) ∧
    (∃ rc, Event.complete "check" "t1-linux-gnu" rc ∈
      (Context.run env0 ctx0 smallCat (fun s => s) (fun _ _ => 1) id "check"
        ["t1-linux-gnu"]).1) ∧
    (∃ b, Event.printResult "check" "t1-linux-gnu" b ∈
      (Context.run env0 ctx0 smallCat (fun s => s) (fun _ _ => 1) id "check"
        ["t1-linux-gnu"]).1) :=
  C4_no_fail_fast env0 ctx0 smallCat (fun s => s) (fun _ _ => 1) id "check"
    ["t1-linux-gnu"] ["configure", "copylibs", "make", "check"]
    (Context.run env0 ctx0 smallCat (fun s => s) (fun _ _ => 1) id "check"
      ["t1-linux-gnu"]).1 "t1-linux-gnu" "check"
    (fun l => List.Perm.refl l) (by decide) (by decide) (by decide) (by decide)

lemma eventStage_segTrace (exitCode : String → String → Int)
    (sched : List String → List String) (act : String)
    (bucket : List (String × List String)) (e : Event)
    (he : e ∈ segTrace exitCode sched act bucket) : eventStage e = some act := by
  rcases List.mem_append.mp he with h1 | h2
  · obtain ⟨p, -, rfl⟩ := List.mem_map.mp h1
    rfl
  · obtain ⟨abi, -, hmem⟩ := List.mem_flatMap.mp h2
    simp only [List.mem_cons, List.not_mem_nil, or_false] at hmem
    rcases hmem with rfl | rfl | rfl <;> rfl

lemma execPhase_append (exitCode : String → String → Int)
    (sched : List String → List String) (c1 c2 : CmdsTable) :
    execPhase exitCode sched (c1 ++ c2) =
      execPhase exitCode sched c1 ++ execPhase exitCode sched c2 := by
  induction c1 with
  | nil => rfl
  | cons c rest ih =>
    obtain ⟨a2, b2⟩ := c
    simp only [List.cons_append, execPhase, List.append_eq, ih, List.append_assoc]

lemma execPhase_stage_mem (exitCode : String → String → Int)
    (sched : List String → List String) (cmds : CmdsTable) (e : Event)
    (he : e ∈ execPhase exitCode sched cmds) (s : String)
    (hs : eventStage e = some s) : s ∈ cmds.map Prod.fst := by
  induction cmds with
  | nil => cases he
  | cons c rest ih =>
    obtain ⟨a2, b2⟩ := c
    rcases List.mem_append.mp he with h1 | h2
    · have := eventStage_segTrace exitCode sched a2 b2 e h1
      rw [this] at hs
      cases hs
      exact List.mem_cons_self _ _
    · exact List.mem_cons_of_mem _ (ih h2)

lemma setCmd_keys (act abi : String) (v : List String) (t : CmdsTable) :
    (setCmd act abi v t).map Prod.fst = t.map Prod.fst := by
  induction t with
  | nil => rfl
  | cons c rest ih =>
    obtain ⟨a2, b2⟩ := c
    by_cases hk : a2 = act
    · subst hk
      simp [setCmd]
    · simp [setCmd, hk, ih]

lemma buildActs_keys (env : Env) (ctx : Ctx) (execOut : String → String)
    (cat : List (String × Glibc)) (abi : String) (acts : List String)
    (cmds cmds2 : CmdsTable)
    (h : buildActs env ctx execOut cat abi acts cmds = .ok cmds2) :
    cmds2.map Prod.fst = cmds.map Prod.fst := by
  induction acts generalizing cmds with
  | nil =>
    simp only [buildActs] at h
    cases h
    rfl
  | cons a0 rest ih =>
    simp only [buildActs] at h
    cases hl : cat.lookup abi with
    | none => rw [hl] at h; cases h
    | some g =>
      rw [hl] at h
      rw [ih _ h, setCmd_keys]

lemma buildPhase_keys (env : Env) (ctx : Ctx) (execOut : String → String)
    (cat : List (String × Glibc)) (stages : List String) (glibcs : List String)
    (cmds cmds2 : CmdsTable)
    (h : (buildPhase env ctx execOut cat stages glibcs cmds).2 = .ok cmds2) :
    cmds2.map Prod.fst = cmds.map Prod.fst := by
  induction glibcs generalizing cmds with
  | nil =>
    simp only [buildPhase] at h
    cases h
    rfl
  | cons a0 rest ih =>
    simp only [buildPhase] at h
    cases hba : buildActs env ctx execOut cat a0 stages cmds with
    | error e =>
      simp only [hba] at h
      exact Except.noConfusion h
    | ok cmdsm =>
      simp only [hba] at h
      rw [ih cmdsm h, buildActs_keys env ctx execOut cat a0 stages cmds cmdsm hba]

lemma buildPhase_events_rr (env : Env) (ctx : Ctx) (execOut : String → String)
    (cat : List (String × Glibc)) (stages : List String) (glibcs : List String)
    (cmds : CmdsTable) (ev : Event)
    (hev : ev ∈ (buildPhase env ctx execOut cat stages glibcs cmds).1) :
    ∃ d, ev = Event.removeRecreate d := by
  induction glibcs generalizing cmds with
  | nil =>
    simp only [buildPhase] at hev
    cases hev
  | cons a0 rest ih =>
    simp only [buildPhase] at hev
    cases hba : buildActs env ctx execOut cat a0 stages cmds with
    | error e =>
      simp only [hba] at hev
      cases hev
    | ok cmdsm =>
      simp only [hba] at hev
      rcases List.mem_append.mp hev with h1 | h2
      · by_cases hkeep : ctx.keep
        · simp [hkeep] at h1
        · simp only [hkeep, if_false, Bool.false_eq_true, List.mem_cons,
            List.not_mem_nil, or_false] at h1
          exact ⟨_, h1⟩
      · exact ih cmdsm h2

lemma not_mem_take_indexOf {α : Type} [DecidableEq α] (a : α) (l : List α) :
    a ∉ l.take (l.indexOf a) := by
  induction l with
  | nil => simp
  | cons b rest ih =>
    by_cases hab : b = a
    · subst hab
      simp [List.indexOf_cons_self]
    · rw [List.indexOf_cons_ne _ (by simpa using hab), List.take_succ_cons]
      intro hmem
      rcases List.mem_cons.mp hmem with heq | hmem2
      · exact hab heq.symm
      · exact ih hmem2

lemma mem_take_of_indexOf_lt {α : Type} [DecidableEq α] (a : α) (l : List α)
    (n : Nat) (hmem : a ∈ l) (hlt : l.indexOf a < n) : a ∈ l.take n := by
  induction l generalizing n with
  | nil => cases hmem
  | cons b rest ih =>
    cases n with
    | zero => omega
    | succ m =>
      by_cases hab : b = a
      · subst hab
        rw [List.take_succ_cons]
        exact List.mem_cons_self _ _
      · rw [List.take_succ_cons]
        have hmem2 : a ∈ rest := by
          rcases List.mem_cons.mp hmem with heq | h2
          · exact absurd heq.symm hab
          · exact h2
        have hlt2 : rest.indexOf a < m := by
          rw [List.indexOf_cons_ne _ (by simpa using hab)] at hlt
          omega
        exact List.mem_cons_of_mem _ (ih m hmem2 hlt2)

lemma table_split (cmds : CmdsTable) (s1 s2 : String)
    (hkeys : cmds.map Prod.fst = ACTIONS) (h1 : s1 ∈ ACTIONS)
    (hlt : ACTIONS.indexOf s1 < ACTIONS.indexOf s2) :
    ∃ c1 c2, cmds = c1 ++ c2 ∧ s1 ∉ c2.map Prod.fst ∧ s2 ∉ c1.map Prod.fst := by
  refine ⟨cmds.take (ACTIONS.indexOf s2), cmds.drop (ACTIONS.indexOf s2),
    (List.take_append_drop _ _).symm, ?_, ?_⟩
  · rw [List.map_drop, hkeys]
    have hs1take : s1 ∈ ACTIONS.take (ACTIONS.indexOf s2) :=
      mem_take_of_indexOf_lt s1 ACTIONS _ h1 hlt
    have hnd : ACTIONS.Nodup := by decide
    have hnd2 : (ACTIONS.take (ACTIONS.indexOf s2) ++
        ACTIONS.drop (ACTIONS.indexOf s2)).Nodup := by
      rw [List.take_append_drop]
      exact hnd
    exact fun hmem => (List.disjoint_of_nodup_append hnd2) hs1take hmem
  · rw [List.map_take, hkeys]
    exact not_mem_take_indexOf s2 ACTIONS

lemma get_append_index_lt {α : Type} (L A B : List α) (hL : L = A ++ B)
    (P Q : α → Prop) (hPB : ∀ e ∈ B, ¬ P e) (hQA : ∀ e ∈ A, ¬ Q e)
    (i j : Nat) (hi : i < L.length) (hj : j < L.length)
    (hPi : P (L.get ⟨i, hi⟩)) (hQj : Q (L.get ⟨j, hj⟩)) : i < j := by
  subst hL
  have hlen : (A ++ B).length = A.length + B.length := List.length_append _ _
  have hiA : i < A.length := by
    by_contra hge
    push_neg at hge
    have hib : i - A.length < B.length := by omega
    have heq : (A ++ B).get ⟨i, hi⟩ = B.get ⟨i - A.length, hib⟩ := by
      rw [List.get_eq_getElem, List.get_eq_getElem,
        List.getElem_append_right hge]
    rw [heq] at hPi
    exact hPB _ (List.get_mem B _ hib) hPi
  have hjB : A.length ≤ j := by
    by_contra hltj
    push_neg at hltj
    have heq : (A ++ B).get ⟨j, hj⟩ = A.get ⟨j, hltj⟩ := by
      rw [List.get_eq_getElem, List.get_eq_getElem,
        List.getElem_append_left hltj]
    rw [heq] at hQj
    exact hQA _ (List.get_mem A _ hltj) hQj
  omega

lemma getD_eq_of_getElem? {α : Type} (l : List α) (k : Nat) (d a : α)
    (h : l[k]? = some a) : l.getD k d = a := by
  induction l generalizing k with
  | nil => cases h
  | cons x xs ih =>
    cases k with
    | zero =>
      simp only [List.getElem?_cons_zero, Option.some.injEq] at h
      simpa [List.getD] using h
    | succ m =>
      simp only [List.getElem?_cons_succ] at h
      simpa [List.getD] using ih m h

lemma getElem?_lt_length {α : Type} (l : List α) (k : Nat) (a : α)
    (h : l[k]? = some a) : k < l.length := by
  by_contra hge
  push_neg at hge
  rw [List.getElem?_eq_none hge] at h
  cases h

lemma chains_len : ∀ p ∈ CMD_MAP_stages, p.2.length ≤ 4 := by decide

lemma chains_consecutive_ordered :
    ∀ p ∈ CMD_MAP_stages, ∀ k, k < 4 → k + 1 < p.2.length →
      (p.2.getD k "" ∈ ACTIONS ∧ p.2.getD (k + 1) "" ∈ ACTIONS ∧
       ACTIONS.indexOf (p.2.getD k "") < ACTIONS.indexOf (p.2.getD (k + 1) "")) := by
  decide

lemma run_build_eq_all (env : Env) (ctx : Ctx) (cat : List (String × Glibc))
    (execOut : String → String) (exitCode : String → String → Int)
    (sched : List String → List String) (action : String)
    (glibcs : List String) (stages : List String)
    (hlist : action ≠ "list") (hact : CMD_MAP_stages.lookup action = some stages) :
    Context.run env ctx cat execOut exitCode sched action glibcs =
      (match buildPhase env ctx execOut cat stages
          (if glibcs.isEmpty then
             List.insertionSort (fun a b => a ≤ b) (cat.map Prod.fst)
           else glibcs)
          (ACTIONS.map (fun a => (a, ([] : List (String × List String))))) with
       | (evs, .error e) => (evs, some e)
       | (evs, .ok cmds) => (evs ++ execPhase exitCode sched cmds, none)) := by
  simp only [Context.run, hact, if_neg hlist]

/-- C3: the stage barrier: in any successful run, every completion event of
stage `K` of the chain precedes, in the serialized trace, every pool
submission of the following stage `K + 1` — the scheduler drains a whole
stage bucket (successes and failures alike) before submitting the next. -/
theorem C3_stage_barrier (env : Env) (ctx : Ctx) (cat : List (String × Glibc))
    (execOut : String → String) (exitCode : String → String → Int)
    (sched : List String → List String) (action : String)
    (glibcs stages : List String) (trace : List Event) (k : Nat)
    (s1 s2 a1 a2 : String) (rc : Int) (cm : List String) (i j : Nat)
    (hrun : Context.run env ctx cat execOut exitCode sched action glibcs =
      (trace, none))
    (hact : CMD_MAP_stages.lookup action = some stages)
    (hk1 : stages[k]? = some s1) (hk2 : stages[k + 1]? = some s2)
    (hi : i < trace.length) (hj : j < trace.length)
    (hci : trace.get ⟨i, hi⟩ = Event.complete s1 a1 rc)
    (hsj : trace.get ⟨j, hj⟩ = Event.submit s2 a2 cm) :
    i < j := by
  have hlist : action ≠ "list" := by
    rintro rfl
    rw [show CMD_MAP_stages.lookup "list" = none from rfl] at hact
    cases hact
  rw [run_build_eq_all env ctx cat execOut exitCode sched action glibcs stages
        hlist hact] at hrun
  rcases hbp : buildPhase env ctx execOut cat stages
      (if glibcs.isEmpty then
         List.insertionSort (fun a b => a ≤ b) (cat.map Prod.fst)
       else glibcs)
      (ACTIONS.map (fun a => (a, ([] : List (String × List String))))) with ⟨evs, r⟩
  rw [hbp] at hrun
  cases r with
  | error e => simp at hrun
  | ok cmds =>
    simp only at hrun
    have htrace : trace = evs ++ execPhase exitCode sched cmds := by
      cases hrun
      rfl
    have hkeys : cmds.map Prod.fst = ACTIONS := by
      have hbp2 : (buildPhase env ctx execOut cat stages
          (if glibcs.isEmpty then
             List.insertionSort (fun a b => a ≤ b) (cat.map Prod.fst)
           else glibcs)
          (ACTIONS.map (fun a => (a, ([] : List (String × List String)))))).2 =
          .ok cmds := by rw [hbp]
      rw [buildPhase_keys _ _ _ _ _ _ _ _ hbp2, List.map_map]
      simp [Function.comp_def]
    have hk2l : k + 1 < stages.length := getElem?_lt_length stages (k + 1) s2 hk2
    have hklt4 : k < 4 := by
      have := chains_len (action, stages) (lookup_mem hact)
      simp only at this
      omega
    have hcons := chains_consecutive_ordered (action, stages) (lookup_mem hact)
      k hklt4 (by simpa using hk2l)
    rw [getD_eq_of_getElem? stages k "" s1 hk1,
        getD_eq_of_getElem? stages (k + 1) "" s2 hk2] at hcons
    obtain ⟨hs1A, hs2A, hidx⟩ := hcons
    obtain ⟨c1, c2, hc12, hns1, hns2⟩ := table_split cmds s1 s2 hkeys hs1A hidx
    subst htrace
    refine get_append_index_lt (evs ++ execPhase exitCode sched cmds)
      (evs ++ execPhase exitCode sched c1) (execPhase exitCode sched c2)
      (by rw [hc12, execPhase_append, ← List.append_assoc])
      (fun e => e = Event.complete s1 a1 rc)
      (fun e => e = Event.submit s2 a2 cm)
      ?_ ?_ i j hi hj hci hsj
    · intro e he heq
      subst heq
      exact hns1 (execPhase_stage_mem exitCode sched c2 _ he s1 rfl)
    · intro e he heq
      subst heq
      rcases List.mem_append.mp he with h1 | h2
      · obtain ⟨d, hd⟩ := buildPhase_events_rr env ctx execOut cat stages
          (if glibcs.isEmpty then
             List.insertionSort (fun a b => a ≤ b) (cat.map Prod.fst)
           else glibcs)
          (ACTIONS.map (fun a => (a, ([] : List (String × List String)))))
          _ (by rw [hbp]; exact h1)
        cases hd
      · exact hns2 (execPhase_stage_mem exitCode sched c1 _ h2 s2 rfl)

/-- Witness for C3 at a concrete one-target `check` run: the `configure`
completion (trace index 3) precedes the `copylibs` submission (index 5). -/
theorem C3_stage_barrier_witness : 3 < 5 :=
  C3_stage_barrier env0 ctx0 smallCat (fun s => s) (fun _ _ => 0) id "check"
    ["t1-linux-gnu"] ["configure", "copylibs", "make", "check"]
    (Context.run env0 ctx0 smallCat (fun s => s) (fun _ _ => 0) id "check"
      ["t1-linux-gnu"]).1 0 "configure" "copylibs" "t1-linux-gnu" "t1-linux-gnu"
    0
    ["cp", "/compilers/t1-linux-gnu/bin/t1-glibc-linux-gnu-gcc -print-file-name=libgcc_s.so.1",
     "/compilers/t1-linux-gnu/bin/t1-glibc-linux-gnu-gcc -print-file-name=libstdc++.so.6",
     "/build/t1-linux-gnu"]
    3 5 (by decide) (by decide) (by decide) (by decide) (by decide) (by decide)
    (by decide) (by decide)

end GlibcTools
